import Mathlib

/-!
Verification of the MDS (Memfault Diagnostic Service) GATT server in
`src/main/gatts_demo.c`.

The C program is an event-driven BLE GATT server: the host stack delivers
discrete events (`ESP_GATTS_WRITE_EVT`, `ESP_GATTS_CONF_EVT`, ...) to
`gatts_profile_event_handler`, which mutates the global `mds_state` and
issues outbound protocol actions (write responses, notifications,
attribute-creation requests).  We embed that handler shallowly as a pure
step function `(State, Event) -> (State, List Action)`.

Interaction with external collaborators (the heap allocator, the Memfault
packetizer, and `esp_ble_gatts_send_indicate`) is nondeterministic from the
program's point of view; we model it with an `Oracle` supplied per event,
carrying the allocator outcome, the packetizer's answer, and the stack's
submission result.
-/

namespace Mds

/-- MDS error codes, from the `#define`s in `gatts_demo.c`. -/
def MDS_ERR_INVALID_LENGTH : Nat := 0x80

def MDS_ERR_CLIENT_ALREADY_SUBSCRIBED : Nat := 0x81

def MDS_ERR_CLIENT_NOT_SUBSCRIBED : Nat := 0x82

/-- The `ESP_GATT_OK` status code of the ESP-IDF GATT layer. -/
def ESP_GATT_OK : Nat := 0x0

/-- The `ESP_GATT_INVALID_PDU` status code (ATT error 0x04). -/
def ESP_GATT_INVALID_PDU : Nat := 0x04

/-- The `ESP_GATT_UUID_CHAR_CLIENT_CONFIG` UUID (the CCCD 16-bit UUID). -/
def ESP_GATT_UUID_CHAR_CLIENT_CONFIG : Nat := 0x2902

/-- The global `mds_state` struct: single-subscriber session state.
`conn_id` and `mtu` are `uint16_t`, `export_mode` and `chunk_sequence`
are `uint8_t` in the C source; we carry them as `Nat`. -/
structure MdsState where
  subscribed : Bool
  conn_id : Nat
  export_mode : Nat
  chunk_sequence : Nat
  mtu : Nat
  congested : Bool
  deriving DecidableEq, Repr

/-- The static initializer of `mds_state`. -/
def initState : MdsState :=
  { subscribed := false
    conn_id := 0xFFFF
    export_mode := 0
    chunk_sequence := 0
    mtu := 23
    congested := false }

/-- The `mds_handles` struct: attribute handles assigned at build time. -/
structure MdsHandles where
  supported_features_handle : Nat
  device_id_handle : Nat
  data_uri_handle : Nat
  auth_handle : Nat
  data_export_handle : Nat
  data_export_cccd_handle : Nat
  deriving DecidableEq, Repr

/-- Environment oracle for one event dispatch: outcome of `malloc`, the
answer `memfault_packetizer_get_chunk` gives when asked for at most `n`
bytes (`none` = no data available, `some data` = a pulled chunk), and the
result of `esp_ble_gatts_send_indicate` (`true` = `ESP_OK`). -/
structure Oracle where
  allocOk : Bool
  chunk : Nat → Option (List Nat)
  sendOk : Bool

/-- The packetizer's contract: it never writes more bytes than the buffer
size it was handed (`chunk_size` is in/out in the C API). -/
def ChunkContract (o : Oracle) : Prop :=
  ∀ n data, o.chunk n = some data → data.length ≤ n

/-- Outbound protocol actions issued by the event handler. -/
inductive Action where
  | sendResponse (connId transId status : Nat)
  | sendNotification (connId attrHandle : Nat) (payload : List Nat)
  | packetizerAbort
  | startAdvertising
  deriving DecidableEq, Repr

/-- Events delivered to `gatts_profile_event_handler` that touch
`mds_state`: write requests (with the target attribute handle, writer's
connection id, transaction id, and payload bytes), notification-flushed
confirmations, MTU negotiation, disconnects, and congestion changes. -/
inductive GattsEvent where
  | write (attrHandle connId transId : Nat) (value : List Nat)
  | conf
  | mtuEvt (mtu : Nat)
  | disconnect (reason : Nat)
  | congest (congested : Bool)
  deriving DecidableEq, Repr

/-- The chunk-size computation `max_chunk_size = mtu_size - 4` of the C source: `mtu_size` is a
`uint16_t`, the subtraction happens in `int`, and the result is converted
to `size_t` (32 bits on the ESP32 target), so an `mtu` below 4 wraps. -/
def max_chunk_size (mtu : Nat) : Nat :=
  (mtu + 2 ^ 32 - 4) % 2 ^ 32

/-- The frame header byte laid down by the packed bit-field struct
`mds_data_export_payload_t`: `chunk_number` occupies bits 0..4 (the
assignment truncates to 5 bits), `rfu` (bits 5..7) is written as 0. -/
def headerByte (seq : Nat) : Nat := seq % 32

/-- The function `send_chunk_notification`: guarded single-chunk send.  Returns the
updated `mds_state` and the outbound actions. -/
def send_chunk_notification (h : MdsHandles) (o : Oracle) (s : MdsState) :
    MdsState × List Action :=
  if ¬ s.subscribed ∨ s.export_mode ≠ 0x01 ∨ s.congested then
    (s, [])
  else
    let maxChunk := max_chunk_size s.mtu
    if ¬ o.allocOk then
      (s, [])
    else
      match o.chunk maxChunk with
      | none =>
          ({ s with export_mode := 0x00 }, [])
      | some data =>
          let payload := headerByte s.chunk_sequence :: data
          if o.sendOk then
            ({ s with chunk_sequence := (s.chunk_sequence + 1) % 32 },
             [Action.sendNotification s.conn_id h.data_export_handle payload])
          else
            (s, [Action.packetizerAbort])

/-- The `ESP_GATTS_WRITE_EVT` arm of `gatts_profile_event_handler`. -/
def handleWrite (h : MdsHandles) (o : Oracle) (s : MdsState)
    (attrHandle connId transId : Nat) (value : List Nat) :
    MdsState × List Action :=
  if attrHandle = h.data_export_handle then
    if value.length ≠ 1 then
      (s, [Action.sendResponse connId transId MDS_ERR_INVALID_LENGTH])
    else if ¬ s.subscribed then
      (s, [Action.sendResponse connId transId MDS_ERR_CLIENT_NOT_SUBSCRIBED])
    else
      let mode := value.getD 0 0
      if mode ≠ 0x00 ∧ mode ≠ 0x01 then
        (s, [Action.sendResponse connId transId ESP_GATT_INVALID_PDU])
      else
        let s1 := { s with export_mode := mode }
        if mode = 0x01 then
          let r := send_chunk_notification h o s1
          (r.1, Action.sendResponse connId transId ESP_GATT_OK :: r.2)
        else
          (s1, [Action.sendResponse connId transId ESP_GATT_OK])
  else if attrHandle = h.data_export_cccd_handle then
    if value.length ≠ 2 then
      (s, [Action.sendResponse connId transId MDS_ERR_INVALID_LENGTH])
    else
      let descr_value := value.getD 1 0 <<< 8 ||| value.getD 0 0
      let notifications_enabled := descr_value &&& 0x0001 ≠ 0
      if notifications_enabled ∧ s.subscribed ∧ s.conn_id ≠ connId then
        (s, [Action.sendResponse connId transId MDS_ERR_CLIENT_ALREADY_SUBSCRIBED])
      else
        let s1 := { s with
          subscribed := decide notifications_enabled
          conn_id := if notifications_enabled then connId else 0xFFFF
          export_mode := if notifications_enabled then s.export_mode else 0x00 }
        (s1, [Action.sendResponse connId transId ESP_GATT_OK])
  else
    (s, [])

/-- The session-relevant arms of `gatts_profile_event_handler` as one pure
step function.  Events not listed in `GattsEvent` (reads, registration,
attribute creation, service start) never touch `mds_state`. -/
def gatts_step (h : MdsHandles) (o : Oracle) (s : MdsState) (e : GattsEvent) :
    MdsState × List Action :=
  match e with
  | GattsEvent.write attrHandle connId transId value =>
      handleWrite h o s attrHandle connId transId value
  | GattsEvent.conf =>
      if s.export_mode = 0x01 then send_chunk_notification h o s else (s, [])
  | GattsEvent.mtuEvt m =>
      ({ s with mtu := m % 2 ^ 16 }, [])
  | GattsEvent.disconnect _ =>
      ({ s with subscribed := false, conn_id := 0xFFFF, export_mode := 0 },
       [Action.startAdvertising])
  | GattsEvent.congest c =>
      let s1 := { s with congested := c }
      if ¬ c ∧ s1.export_mode = 0x01 then
        let r := send_chunk_notification h o s1
        (r.1, r.2)
      else
        (s1, [])

/-- Run a whole trace of (oracle, event) pairs, collecting all actions. -/
def runTrace (h : MdsHandles) (s : MdsState) :
    List (Oracle × GattsEvent) → MdsState × List Action
  | [] => (s, [])
  | (o, e) :: rest =>
      let r := gatts_step h o s e
      let r2 := runTrace h r.1 rest
      (r2.1, r.2 ++ r2.2)

/-- The notification payloads contained in an action list, in order. -/
def notifPayloads (acts : List Action) : List (List Nat) :=
  acts.filterMap fun a =>
    match a with
    | Action.sendNotification _ _ payload => some payload
    | _ => none

/-- The frame-header bytes of the notifications in an action list. -/
def notifHeaders (acts : List Action) : List Nat :=
  (notifPayloads acts).filterMap List.head?

/-- Number of notification submissions in an action list. -/
def sendCount (acts : List Action) : Nat := (notifPayloads acts).length

/-- Number of `memfault_packetizer_abort` calls in an action list. -/
def abortCount (acts : List Action) : Nat :=
  (acts.filter fun a => a = Action.packetizerAbort).length

/-! ## Service builder sequencer

The attribute-creation arms of `gatts_profile_event_handler`
(`ESP_GATTS_REG_EVT`, `ESP_GATTS_CREATE_EVT`, `ESP_GATTS_ADD_CHAR_EVT`,
`ESP_GATTS_ADD_CHAR_DESCR_EVT`, `ESP_GATTS_START_EVT`).  The mutable
variables are `profile_handle` and `mds_handles`; characteristics are told
apart by byte 12 of their 128-bit UUID. -/

/-- The constant `MDS_NUM_HANDLES`: 1 service + 2 per characteristic + 1 descriptor. -/
def MDS_NUM_HANDLES : Nat := 1 + 2 * 5 + 1

/-- Creation-confirmation events, each carrying the status reported by the
stack and the assigned attribute handle. -/
inductive BuildEvent where
  | regEvt (status appId : Nat)
  | createEvt (status serviceHandle : Nat)
  | addCharEvt (status attrHandle uuidByte12 : Nat)
  | addCharDescrEvt (status attrHandle descrUuid16 : Nat)
  | startEvt (status : Nat)
  deriving DecidableEq, Repr

/-- Outbound attribute-creation requests. -/
inductive BuildAction where
  | createService (numHandles : Nat)
  | addChar (uuidByte12 : Nat)
  | addCharDescr
  | startService
  deriving DecidableEq, Repr

/-- The mutable build-time state: `profile_handle` plus `mds_handles`. -/
structure BuildVars where
  profile_handle : Nat
  handles : MdsHandles
  deriving DecidableEq, Repr

/-- Zero-initialized build state (`mds_handles = {0}`). -/
def initBuildVars : BuildVars :=
  { profile_handle := 0
    handles :=
      { supported_features_handle := 0
        device_id_handle := 0
        data_uri_handle := 0
        auth_handle := 0
        data_export_handle := 0
        data_export_cccd_handle := 0 } }

/-- Which handle-table field an `ADD_CHAR_EVT` records, keyed on UUID
byte 12. -/
def recordCharHandle (h : MdsHandles) (uuidByte12 attrHandle : Nat) :
    MdsHandles :=
  if uuidByte12 = 0x01 then { h with supported_features_handle := attrHandle }
  else if uuidByte12 = 0x02 then { h with device_id_handle := attrHandle }
  else if uuidByte12 = 0x03 then { h with data_uri_handle := attrHandle }
  else if uuidByte12 = 0x04 then { h with auth_handle := attrHandle }
  else if uuidByte12 = 0x05 then { h with data_export_handle := attrHandle }
  else h

/-- The next creation request an `ADD_CHAR_EVT` issues, keyed on UUID
byte 12 of the characteristic just added. -/
def nextCreationRequest (uuidByte12 : Nat) : List BuildAction :=
  if uuidByte12 = 0x01 then [BuildAction.addChar 0x02]
  else if uuidByte12 = 0x02 then [BuildAction.addChar 0x03]
  else if uuidByte12 = 0x03 then [BuildAction.addChar 0x04]
  else if uuidByte12 = 0x04 then [BuildAction.addChar 0x05]
  else if uuidByte12 = 0x05 then [BuildAction.addCharDescr]
  else []

/-- The build-sequencer arms of `gatts_profile_event_handler`.  Note that
the C handler logs each event's `status` but never branches on it. -/
def buildStep (bs : BuildVars) (e : BuildEvent) : BuildVars × List BuildAction :=
  match e with
  | BuildEvent.regEvt _ _ =>
      (bs, [BuildAction.createService MDS_NUM_HANDLES])
  | BuildEvent.createEvt _ serviceHandle =>
      ({ bs with profile_handle := serviceHandle }, [BuildAction.addChar 0x01])
  | BuildEvent.addCharEvt _ attrHandle uuidByte12 =>
      ({ bs with handles := recordCharHandle bs.handles uuidByte12 attrHandle },
       nextCreationRequest uuidByte12)
  | BuildEvent.addCharDescrEvt _ attrHandle descrUuid16 =>
      ((if descrUuid16 = ESP_GATT_UUID_CHAR_CLIENT_CONFIG then
          { bs with handles :=
              { bs.handles with data_export_cccd_handle := attrHandle } }
        else bs),
       [BuildAction.startService])
  | BuildEvent.startEvt _ =>
      (bs, [])

/-! ## Concrete fixtures

A populated handle table (handles as a successful build would assign them:
the service occupies handle 1, the value handles follow) and simple
oracles, used by witnesses and counterexamples. -/

/-- A concrete handle table with all six handles distinct. -/
def demoHandles : MdsHandles :=
  { supported_features_handle := 3
    device_id_handle := 5
    data_uri_handle := 7
    auth_handle := 9
    data_export_handle := 11
    data_export_cccd_handle := 12 }

/-- An oracle whose packetizer always has a one-byte chunk ready and whose
allocator and stack submissions always succeed. -/
def oReady : Oracle :=
  { allocOk := true, chunk := fun _ => some [7], sendOk := true }

/-- An oracle whose packetizer yields the empty chunk (so the packetizer
contract holds at every buffer size) and whose submissions succeed. -/
def oEmptyChunk : Oracle :=
  { allocOk := true, chunk := fun _ => some [], sendOk := true }

/-- An oracle whose packetizer is drained. -/
def oDrained : Oracle :=
  { allocOk := true, chunk := fun _ => none, sendOk := true }

/-- An oracle with data available but a failing stack submission. -/
def oSendFail : Oracle :=
  { allocOk := true, chunk := fun _ => some [7], sendOk := false }

/-- A session that has subscribed (from connection 7) and is streaming. -/
def sStream : MdsState :=
  { initState with subscribed := true, conn_id := 7, export_mode := 1 }

/-- A streaming session whose sequence counter is about to wrap. -/
def sStream31 : MdsState := { sStream with chunk_sequence := 31 }

/-- An event trace that subscribes (CCCD enable from connection 7) and then
writes export mode 1 once: it produces exactly one chunk submission. -/
def pacingTrace2 : List (Oracle × GattsEvent) :=
  [(oReady, GattsEvent.write 12 7 1 [1, 0]),
   (oReady, GattsEvent.write 11 7 2 [1])]

/-- The same trace followed by a second export-mode-1 write: the appended
event is a plain write request, not a confirmation or congestion change,
yet it produces a second chunk submission. -/
def pacingTrace3 : List (Oracle × GattsEvent) :=
  pacingTrace2 ++ [(oReady, GattsEvent.write 11 7 3 [1])]

/-- A full session trace: subscribe, negotiate MTU 100, start streaming
(one submission), four flushed confirmations (four more submissions, the
counter reaching 5), a congestion onset, and finally a disconnect. -/
def disconnectTrace : List (Oracle × GattsEvent) :=
  [(oReady, GattsEvent.write 12 7 1 [1, 0]),
   (oReady, GattsEvent.mtuEvt 100),
   (oReady, GattsEvent.write 11 7 2 [1]),
   (oReady, GattsEvent.conf),
   (oReady, GattsEvent.conf),
   (oReady, GattsEvent.conf),
   (oReady, GattsEvent.conf),
   (oReady, GattsEvent.congest true),
   (oReady, GattsEvent.disconnect 0)]

/-- A trace delivering two confirmations to a streaming session whose
counter is at 31: the two submitted headers are 31 and 0 (one wrap). -/
def wrapTrace : List (Oracle × GattsEvent) :=
  [(oReady, GattsEvent.conf), (oReady, GattsEvent.conf)]

/-- The three events that can lead the handler into
`send_chunk_notification`'s send path: an accepted 1-byte write of export
mode 1 to the DataExport characteristic while subscribed, a
notification-flushed confirmation while streaming, and a congestion-clear
while streaming. -/
def isSendTrigger (h : MdsHandles) (s : MdsState) : GattsEvent → Bool
  | GattsEvent.write a _ _ v =>
      a == h.data_export_handle && v.length == 1 && s.subscribed &&
        v.getD 0 0 == 1
  | GattsEvent.conf => s.export_mode == 1
  | GattsEvent.congest c => !c && s.export_mode == 1
  | _ => false

/-! ## Helper lemmas -/

theorem max_chunk_size_eq (m : Nat) (h4 : 4 ≤ m) (hlt : m < 2 ^ 32) :
    max_chunk_size m = m - 4 := by
  unfold max_chunk_size
  omega

theorem headerByte_eq (seq : Nat) (h : seq < 32) : headerByte seq = seq :=
  Nat.mod_eq_of_lt h

/-- Bit 0 of the little-endian CCCD value `value[1] << 8 | value[0]` is
bit 0 of the low byte. -/
theorem descr_bit0 (b0 b1 : Nat) : (b1 <<< 8 ||| b0) &&& 1 = b0 % 2 := by
  rw [Nat.and_one_is_mod]
  rcases Nat.mod_two_eq_zero_or_one b0 with hb | hb
  · have h2 : ¬ ((b1 <<< 8 ||| b0) % 2 = 1) := by
      rw [Nat.or_mod_two_eq_one, Nat.shiftLeft_eq]
      intro hcon
      rcases hcon with hc | hc
      · omega
      · omega
    omega
  · have h2 : (b1 <<< 8 ||| b0) % 2 = 1 := by
      rw [Nat.or_mod_two_eq_one]
      right
      exact hb
    omega

theorem notifPayloads_append (a b : List Action) :
    notifPayloads (a ++ b) = notifPayloads a ++ notifPayloads b :=
  List.filterMap_append a b _

theorem notifHeaders_append (a b : List Action) :
    notifHeaders (a ++ b) = notifHeaders a ++ notifHeaders b := by
  unfold notifHeaders
  rw [notifPayloads_append, List.filterMap_append]

/-- Case analysis of `send_chunk_notification`: it is a silent no-op, or
idles the export mode on a drained source, or aborts the packetizer on a
failed submission, or sends exactly one framed chunk and advances the
sequence counter. -/
theorem scn_cases (h : MdsHandles) (o : Oracle) (s : MdsState) :
    send_chunk_notification h o s = (s, []) ∨
    send_chunk_notification h o s = ({ s with export_mode := 0 }, []) ∨
    send_chunk_notification h o s = (s, [Action.packetizerAbort]) ∨
    ∃ data, o.chunk (max_chunk_size s.mtu) = some data ∧ o.sendOk = true ∧
      s.subscribed = true ∧ s.export_mode = 1 ∧ s.congested = false ∧
      send_chunk_notification h o s =
        ({ s with chunk_sequence := (s.chunk_sequence + 1) % 32 },
         [Action.sendNotification s.conn_id h.data_export_handle
            (headerByte s.chunk_sequence :: data)]) := by
  by_cases hg : ¬ s.subscribed ∨ s.export_mode ≠ 0x01 ∨ s.congested
  · left
    simp only [send_chunk_notification, if_pos hg]
  · by_cases ha : o.allocOk
    · rcases hc : o.chunk (max_chunk_size s.mtu) with _ | data
      · right; left
        simp only [send_chunk_notification, if_neg hg]
        simp [ha, hc]
      · by_cases hsend : o.sendOk
        · right; right; right
          refine ⟨data, rfl, by simp [hsend], ?_, ?_, ?_, ?_⟩
          · by_cases hs : s.subscribed
            · exact hs
            · exact absurd (Or.inl hs) hg
          · by_cases hm : s.export_mode = 1
            · exact hm
            · exact absurd (Or.inr (Or.inl hm)) hg
          · by_cases hcon : s.congested
            · exact absurd (Or.inr (Or.inr hcon)) hg
            · simpa using hcon
          · simp only [send_chunk_notification, if_neg hg]
            simp [ha, hc, hsend]
        · right; right; left
          simp only [send_chunk_notification, if_neg hg]
          simp [ha, hc, hsend]
    · left
      simp only [send_chunk_notification, if_neg hg]
      simp [ha]

/-- Payload characterization of the write arm: it submits no notification
(and leaves the sequence counter alone), or submits exactly one framed
chunk, which requires an accepted export-mode-1 write. -/
theorem handleWrite_payload_spec (h : MdsHandles) (o : Oracle) (s : MdsState)
    (a c t : Nat) (v : List Nat) :
    (notifPayloads (handleWrite h o s a c t v).2 = [] ∧
     (handleWrite h o s a c t v).1.chunk_sequence = s.chunk_sequence) ∨
    (∃ data,
      notifPayloads (handleWrite h o s a c t v).2 =
        [headerByte s.chunk_sequence :: data] ∧
      (handleWrite h o s a c t v).1.chunk_sequence =
        (s.chunk_sequence + 1) % 32 ∧
      a = h.data_export_handle ∧ v.length = 1 ∧ s.subscribed = true ∧
      v.getD 0 0 = 1) := by
  by_cases hda : a = h.data_export_handle
  · rcases v with _ | ⟨b, v2⟩
    · left
      simp [handleWrite, hda, notifPayloads]
    · rcases v2 with _ | ⟨b2, v3⟩
      · by_cases hsub : s.subscribed
        · by_cases hb1 : b = 1
          · subst hb1
            have hred : handleWrite h o s a c t [1] =
                ((send_chunk_notification h o { s with export_mode := 1 }).1,
                 Action.sendResponse c t ESP_GATT_OK ::
                   (send_chunk_notification h o { s with export_mode := 1 }).2) := by
              simp [handleWrite, hda, hsub]
            rcases scn_cases h o { s with export_mode := 1 } with
              h4 | h4 | h4 | ⟨data, _, _, _, _, _, h4⟩
            · left
              rw [hred, h4]
              exact ⟨rfl, rfl⟩
            · left
              rw [hred, h4]
              exact ⟨rfl, rfl⟩
            · left
              rw [hred, h4]
              exact ⟨by simp [notifPayloads], rfl⟩
            · right
              refine ⟨data, ?_, ?_, hda, rfl, hsub, rfl⟩
              · rw [hred, h4]
                simp [notifPayloads]
              · rw [hred, h4]
          · by_cases hb0 : b = 0
            · subst hb0
              left
              simp [handleWrite, hda, hsub, notifPayloads]
            · left
              simp [handleWrite, hda, hsub, hb0, hb1, notifPayloads]
        · left
          simp [handleWrite, hda, hsub, notifPayloads]
      · left
        simp [handleWrite, hda, notifPayloads]
  · by_cases hcc : a = h.data_export_cccd_handle
    · left
      unfold handleWrite
      simp only [if_neg hda, if_pos hcc]
      split_ifs <;> simp [notifPayloads]
    · left
      simp [handleWrite, hda, hcc, notifPayloads]

/-- Payload characterization of one event dispatch: every event submits at
most one notification, only trigger events submit one, the submitted frame
carries the pre-event sequence counter, and the counter advances exactly
when a frame is submitted. -/
theorem step_payload_spec (h : MdsHandles) (o : Oracle) (s : MdsState)
    (e : GattsEvent) :
    (notifPayloads (gatts_step h o s e).2 = [] ∧
     (gatts_step h o s e).1.chunk_sequence = s.chunk_sequence) ∨
    (∃ data,
      notifPayloads (gatts_step h o s e).2 =
        [headerByte s.chunk_sequence :: data] ∧
      (gatts_step h o s e).1.chunk_sequence = (s.chunk_sequence + 1) % 32 ∧
      isSendTrigger h s e = true) := by
  cases e with
  | write a c t v =>
      rcases handleWrite_payload_spec h o s a c t v with
        hw | ⟨data, h1, h2, h3, h4, h5, h6⟩
      · left
        exact hw
      · right
        refine ⟨data, h1, h2, ?_⟩
        rcases v with _ | ⟨b, v2⟩
        · simp at h4
        · rcases v2 with _ | ⟨b2, v3⟩
          · have hb : b = 1 := by simpa using h6
            subst hb
            simp [isSendTrigger, h3, h5]
          · simp at h4
  | conf =>
      by_cases hm : s.export_mode = 1
      · have hstep : gatts_step h o s GattsEvent.conf =
            send_chunk_notification h o s := by
          simp [gatts_step, hm]
        rcases scn_cases h o s with h4 | h4 | h4 | ⟨data, _, _, _, _, _, h4⟩
        · left
          rw [hstep, h4]
          exact ⟨rfl, rfl⟩
        · left
          rw [hstep, h4]
          exact ⟨rfl, rfl⟩
        · left
          rw [hstep, h4]
          exact ⟨rfl, by simp [notifPayloads]⟩
        · right
          refine ⟨data, ?_, ?_, by simp [isSendTrigger, hm]⟩
          · rw [hstep, h4]
            simp [notifPayloads]
          · rw [hstep, h4]
      · left
        simp [gatts_step, hm, notifPayloads]
  | mtuEvt m =>
      left
      simp [gatts_step, notifPayloads]
  | disconnect r =>
      left
      simp [gatts_step, notifPayloads]
  | congest c =>
      cases c with
      | true =>
          left
          simp [gatts_step, notifPayloads]
      | false =>
          by_cases hm : s.export_mode = 1
          · have hstep : gatts_step h o s (GattsEvent.congest false) =
                send_chunk_notification h o { s with congested := false } := by
              simp [gatts_step, hm]
            rcases scn_cases h o { s with congested := false } with
              h4 | h4 | h4 | ⟨data, _, _, _, _, _, h4⟩
            · left
              rw [hstep, h4]
              exact ⟨rfl, rfl⟩
            · left
              rw [hstep, h4]
              exact ⟨rfl, rfl⟩
            · left
              rw [hstep, h4]
              exact ⟨rfl, by simp [notifPayloads]⟩
            · right
              refine ⟨data, ?_, ?_, by simp [isSendTrigger, hm]⟩
              · rw [hstep, h4]
                simp [notifPayloads]
              · rw [hstep, h4]
          · left
            simp [gatts_step, hm, notifPayloads]

/-- The sequence counter stays below 32 across any event dispatch. -/
theorem step_seq_lt (h : MdsHandles) (o : Oracle) (s : MdsState)
    (e : GattsEvent) (hs : s.chunk_sequence < 32) :
    (gatts_step h o s e).1.chunk_sequence < 32 := by
  rcases step_payload_spec h o s e with ⟨-, h2⟩ | ⟨data, -, h2, -⟩
  · rw [h2]
    exact hs
  · rw [h2]
    exact Nat.mod_lt _ (by norm_num)

/-- Headers of the notifications submitted along a trace form a
consecutive mod-32 run: adjacent headers differ by exactly one step, and
the first header (if any) is the starting sequence counter. -/
theorem runTrace_chain (h : MdsHandles) (tr : List (Oracle × GattsEvent)) :
    ∀ s : MdsState, s.chunk_sequence < 32 →
      List.Chain' (fun x y => y = (x + 1) % 32)
        (notifHeaders (runTrace h s tr).2) ∧
      (∀ x, (notifHeaders (runTrace h s tr).2).head? = some x →
        x = s.chunk_sequence) := by
  induction tr with
  | nil =>
      intro s hs
      constructor
      · simp [runTrace, notifHeaders, notifPayloads]
      · intro x hx
        simp [runTrace, notifHeaders, notifPayloads] at hx
  | cons p tr ih =>
      intro s hs
      obtain ⟨o, e⟩ := p
      have hrun : (runTrace h s ((o, e) :: tr)).2 =
          (gatts_step h o s e).2 ++
            (runTrace h (gatts_step h o s e).1 tr).2 := rfl
      rw [hrun, notifHeaders_append]
      rcases step_payload_spec h o s e with ⟨hp, hseq⟩ | ⟨data, hp, hseq, -⟩
      · have hempty : notifHeaders (gatts_step h o s e).2 = [] := by
          unfold notifHeaders
          rw [hp]
          rfl
        rw [hempty, List.nil_append]
        have hs1 : (gatts_step h o s e).1.chunk_sequence < 32 := by
          rw [hseq]
          exact hs
        refine ⟨(ih _ hs1).1, fun x hx => ?_⟩
        rw [(ih _ hs1).2 x hx, hseq]
      · have hone : notifHeaders (gatts_step h o s e).2 =
            [headerByte s.chunk_sequence] := by
          unfold notifHeaders
          rw [hp]
          rfl
        rw [hone, headerByte_eq _ hs, List.singleton_append]
        have hs1 : (gatts_step h o s e).1.chunk_sequence < 32 := by
          rw [hseq]
          exact Nat.mod_lt _ (by norm_num)
        obtain ⟨ihc, ihh⟩ := ih _ hs1
        constructor
        · rw [List.chain'_cons']
          refine ⟨fun y hy => ?_, ihc⟩
          rw [ihh y (Option.mem_def.mp hy), hseq]
        · intro x hx
          simp only [List.head?_cons, Option.some_inj] at hx
          exact hx.symm

/-- When all three preconditions hold, the allocator succeeds, the
packetizer has data, and the stack submission fails,
`send_chunk_notification` leaves the state untouched and aborts the
packetizer. -/
theorem scn_send_failure (h : MdsHandles) (o : Oracle) (s : MdsState)
    (hsub : s.subscribed = true) (hm : s.export_mode = 1)
    (hcong : s.congested = false) (halloc : o.allocOk = true)
    (hdata : (o.chunk (max_chunk_size s.mtu)).isSome = true)
    (hfail : o.sendOk = false) :
    send_chunk_notification h o s = (s, [Action.packetizerAbort]) := by
  rcases Option.isSome_iff_exists.mp hdata with ⟨d, hd⟩
  simp [send_chunk_notification, hsub, hm, hcong, halloc, hd, hfail]

/-! ## Claim theorems -/

/-- C8: `send_chunk_notification` is a silent no-op — no notification, no
error, no state change — whenever its three preconditions (subscribed,
`export_mode = 1` i.e. streaming, link not congested, checked in that
short-circuit order) do not all hold; and when the telemetry source
reports no data available it sets `export_mode` to Idle (0) and sends
nothing. -/
theorem mds_trySendNext_noop (h : MdsHandles) (o : Oracle) (s : MdsState) :
    (¬ (s.subscribed = true ∧ s.export_mode = 1 ∧ s.congested = false) →
      send_chunk_notification h o s = (s, [])) ∧
    (s.subscribed = true → s.export_mode = 1 → s.congested = false →
      o.allocOk = true → o.chunk (max_chunk_size s.mtu) = none →
      send_chunk_notification h o s = ({ s with export_mode := 0 }, [])) := by
  constructor
  · intro hguard
    have hg : ¬ s.subscribed ∨ s.export_mode ≠ 0x01 ∨ s.congested := by
      by_contra hcon
      push_neg at hcon
      refine hguard ⟨by simpa using hcon.1, hcon.2.1, by simpa using hcon.2.2⟩
    simp only [send_chunk_notification, if_pos hg]
  · intro h1 h2 h3 h4 h5
    simp [send_chunk_notification, h1, h2, h3, h4, h5]

/-- C8 witness: at concrete inputs, an unsubscribed session yields a
silent no-op, and a drained source idles a streaming session. -/
theorem mds_trySendNext_noop_witness :
    send_chunk_notification demoHandles oReady initState = (initState, []) ∧
    send_chunk_notification demoHandles oDrained sStream =
      ({ sStream with export_mode := 0 }, []) :=
  ⟨(mds_trySendNext_noop demoHandles oReady initState).1 (by decide),
   (mds_trySendNext_noop demoHandles oDrained sStream).2 rfl rfl rfl rfl rfl⟩

/-- C3 counterexample: the claim demands that a disconnect reset the whole
session to rest — in particular `chunk_sequence = 0`, `mtu = 23`
(protocol minimum) and `congested = false`.  Running a concrete session
from the initial state (subscribe, MTU 100, stream five chunks, congestion
onset, disconnect) ends with `chunk_sequence = 5`, `mtu = 100` and
`congested = true`: the three fields survive the disconnect. -/
theorem mds_disconnect_not_full_reset :
    (runTrace demoHandles initState disconnectTrace).1.chunk_sequence ≠ 0 ∧
    (runTrace demoHandles initState disconnectTrace).1.mtu ≠ 23 ∧
    (runTrace demoHandles initState disconnectTrace).1.congested ≠ false := by
  refine ⟨by decide, by decide, by decide⟩

/-- C3 (amended): the `ESP_GATTS_DISCONNECT_EVT` arm resets exactly the
subscription fields — `subscribed := false`, `conn_id := 0xFFFF`,
`export_mode := 0` — and restarts advertising, while `chunk_sequence`,
`mtu` and `congested` keep their pre-disconnect values. -/
theorem mds_disconnect_resets_subscription (h : MdsHandles) (o : Oracle)
    (s : MdsState) (reason : Nat) :
    gatts_step h o s (GattsEvent.disconnect reason) =
      ({ s with subscribed := false, conn_id := 0xFFFF, export_mode := 0 },
       [Action.startAdvertising]) := rfl

/-- C4 counterexample: the claim demands that a non-success status (here
status 1) in an attribute-creation confirmation stop the build and that
start-service never be issued afterward.  The code never inspects the
status: a failed descriptor-add confirmation still issues the
start-service request, and a failed characteristic-add confirmation still
issues the next add-characteristic request. -/
theorem mds_build_error_still_progresses :
    BuildAction.startService ∈
      (buildStep initBuildVars (BuildEvent.addCharDescrEvt 1 11
        ESP_GATT_UUID_CHAR_CLIENT_CONFIG)).2 ∧
    (buildStep initBuildVars (BuildEvent.addCharEvt 1 3 0x01)).2 =
      [BuildAction.addChar 0x02] := by
  refine ⟨by decide, by decide⟩

/-- C4 (amended): the build sequencer ignores the status carried by every
creation confirmation — its behavior is identical for any two statuses —
and the descriptor-add confirmation always issues the start-service
request, success or not.  There is no failure state: a partially built
service is started anyway. -/
theorem mds_buildStep_ignores_status (bs : BuildVars)
    (st st' sh ah b u : Nat) :
    buildStep bs (BuildEvent.createEvt st sh) =
        buildStep bs (BuildEvent.createEvt st' sh) ∧
    buildStep bs (BuildEvent.addCharEvt st ah b) =
        buildStep bs (BuildEvent.addCharEvt st' ah b) ∧
    buildStep bs (BuildEvent.addCharDescrEvt st ah u) =
        buildStep bs (BuildEvent.addCharDescrEvt st' ah u) ∧
    (buildStep bs (BuildEvent.addCharDescrEvt st ah u)).2 =
        [BuildAction.startService] :=
  ⟨rfl, rfl, rfl, rfl⟩

/-- C9 counterexample: the claim demands a protocol-violation error
response for a write whose handle is neither the DataExport
characteristic (11 in `demoHandles`) nor its CCCD (12).  A write to
handle 99 produces no response at all — the action list is empty and the
state unchanged: the write is silently ignored. -/
theorem mds_unknown_write_no_response :
    gatts_step demoHandles oReady initState (GattsEvent.write 99 1 1 [1]) =
      (initState, []) := by decide

/-- C9 (amended): a write-request event whose attribute handle is neither
the DataExport characteristic handle nor its CCCD handle falls through
both dispatch branches: no response of any kind is sent and no session
state changes. -/
theorem mds_unknown_write_silently_ignored (h : MdsHandles) (o : Oracle)
    (s : MdsState) (a c t : Nat) (v : List Nat)
    (h1 : a ≠ h.data_export_handle) (h2 : a ≠ h.data_export_cccd_handle) :
    gatts_step h o s (GattsEvent.write a c t v) = (s, []) := by
  simp [gatts_step, handleWrite, h1, h2]

/-- C9 witness: the amended behavior at a concrete unknown handle. -/
theorem mds_unknown_write_silently_ignored_witness :
    gatts_step demoHandles oReady sStream (GattsEvent.write 42 7 9 [1, 0]) =
      (sStream, []) :=
  mds_unknown_write_silently_ignored demoHandles oReady sStream 42 7 9 [1, 0]
    (by decide) (by decide)

/-- C10: a 2-byte CCCD write whose little-endian value has bit 0 clear (a
disable-write) always succeeds with `ESP_GATT_OK` and resets the
subscription — `subscribed := false`, `subscriberId` cleared to the
sentinel `0xFFFF`, `export_mode` forced to 0 — for every writer
connection, including one different from the recorded subscriber: the
AlreadySubscribed guard is conjoined with `notifications_enabled` and so
is evaluated only for enable-writes. -/
theorem mds_cccd_disable_always_succeeds (h : MdsHandles) (o : Oracle)
    (s : MdsState) (c t : Nat) (v : List Nat)
    (hne : h.data_export_cccd_handle ≠ h.data_export_handle)
    (hlen : v.length = 2)
    (hbit : (v.getD 1 0 <<< 8 ||| v.getD 0 0) &&& 0x0001 = 0) :
    gatts_step h o s (GattsEvent.write h.data_export_cccd_handle c t v) =
      ({ s with subscribed := false, conn_id := 0xFFFF, export_mode := 0 },
       [Action.sendResponse c t ESP_GATT_OK]) := by
  rcases v with _ | ⟨b0, v2⟩
  · simp at hlen
  · rcases v2 with _ | ⟨b1, v3⟩
    · simp at hlen
    · rcases v3 with _ | ⟨b2, v4⟩
      · have hb : b0 % 2 = 0 := by
          have h2 : (b1 <<< 8 ||| b0) &&& 1 = 0 := hbit
          rwa [descr_bit0] at h2
        simp [gatts_step, handleWrite, hne, hb]
      · simp at hlen

/-- C10 witness: a disable-write `[0x00, 0x00]` from connection 9 while
connection 7 is the recorded subscriber still succeeds and unsubscribes
connection 7. -/
theorem mds_cccd_disable_always_succeeds_witness :
    gatts_step demoHandles oReady sStream
        (GattsEvent.write demoHandles.data_export_cccd_handle 9 4 [0, 0]) =
      ({ sStream with subscribed := false, conn_id := 0xFFFF, export_mode := 0 },
       [Action.sendResponse 9 4 ESP_GATT_OK]) :=
  mds_cccd_disable_always_succeeds demoHandles oReady sStream 9 4 [0, 0]
    (by decide) (by decide) (by decide)

/-- C5: a CCCD enable-write (2 bytes, bit 0 of the little-endian value
set) from a connection different from the recorded subscriber fails with
`MDS_ERR_CLIENT_ALREADY_SUBSCRIBED` (0x81) and changes nothing, while an
enable-write from the already-subscribed connection itself succeeds and
leaves the session exactly as it was (idempotent); the single `conn_id`
field makes at most one subscriber recordable at any time. -/
theorem mds_cccd_single_subscriber (h : MdsHandles) (o : Oracle)
    (s : MdsState) (c t : Nat) (v : List Nat)
    (hne : h.data_export_cccd_handle ≠ h.data_export_handle)
    (hlen : v.length = 2)
    (hbit : (v.getD 1 0 <<< 8 ||| v.getD 0 0) &&& 0x0001 ≠ 0)
    (hsub : s.subscribed = true) :
    (s.conn_id ≠ c →
      gatts_step h o s (GattsEvent.write h.data_export_cccd_handle c t v) =
        (s, [Action.sendResponse c t MDS_ERR_CLIENT_ALREADY_SUBSCRIBED])) ∧
    (s.conn_id = c →
      gatts_step h o s (GattsEvent.write h.data_export_cccd_handle c t v) =
        (s, [Action.sendResponse c t ESP_GATT_OK])) := by
  rcases v with _ | ⟨b0, v2⟩
  · simp at hlen
  · rcases v2 with _ | ⟨b1, v3⟩
    · simp at hlen
    · rcases v3 with _ | ⟨b2, v4⟩
      · have hb : b0 % 2 = 1 := by
          have h2 : (b1 <<< 8 ||| b0) &&& 1 ≠ 0 := hbit
          rw [descr_bit0] at h2
          omega
        constructor
        · intro hdiff
          simp [gatts_step, handleWrite, hne, hb, hsub, hdiff]
        · intro heq
          obtain ⟨sb, cid, em, sq, mt, cg⟩ := s
          have hs2 : sb = true := hsub
          have hc2 : cid = c := heq
          subst hs2
          subst hc2
          simp [gatts_step, handleWrite, hne, hb]
      · simp at hlen

/-- C5 witness: with connection 7 subscribed, an enable-write `[1, 0]`
from connection 9 is refused with 0x81 and the session is unchanged; the
same enable-write from connection 7 succeeds and is a no-op. -/
theorem mds_cccd_single_subscriber_witness :
    (gatts_step demoHandles oReady sStream
        (GattsEvent.write demoHandles.data_export_cccd_handle 9 4 [1, 0]) =
      (sStream,
       [Action.sendResponse 9 4 MDS_ERR_CLIENT_ALREADY_SUBSCRIBED])) ∧
    (gatts_step demoHandles oReady sStream
        (GattsEvent.write demoHandles.data_export_cccd_handle 7 4 [1, 0]) =
      (sStream, [Action.sendResponse 7 4 ESP_GATT_OK])) :=
  ⟨(mds_cccd_single_subscriber demoHandles oReady sStream 9 4 [1, 0]
      (by decide) (by decide) (by decide) (by decide)).1 (by decide),
   (mds_cccd_single_subscriber demoHandles oReady sStream 7 4 [1, 0]
      (by decide) (by decide) (by decide) (by decide)).2 (by decide)⟩

/-- C6: a write to the DataExport characteristic is validated in order —
wrong length (not exactly 1 byte) answers `MDS_ERR_INVALID_LENGTH` (0x80)
with no state change; not subscribed answers
`MDS_ERR_CLIENT_NOT_SUBSCRIBED` (0x82) with no state change; a value
other than 0 or 1 answers `ESP_GATT_INVALID_PDU` with no state change;
otherwise the write succeeds with `ESP_GATT_OK`, `export_mode` is set to
the written value, and a value of 1 triggers `send_chunk_notification`. -/
theorem mds_data_export_write_validation (h : MdsHandles) (o : Oracle)
    (s : MdsState) (c t : Nat) (v : List Nat) :
    (v.length ≠ 1 →
      gatts_step h o s (GattsEvent.write h.data_export_handle c t v) =
        (s, [Action.sendResponse c t MDS_ERR_INVALID_LENGTH])) ∧
    (v.length = 1 → s.subscribed = false →
      gatts_step h o s (GattsEvent.write h.data_export_handle c t v) =
        (s, [Action.sendResponse c t MDS_ERR_CLIENT_NOT_SUBSCRIBED])) ∧
    (v.length = 1 → s.subscribed = true → v.getD 0 0 ≠ 0 → v.getD 0 0 ≠ 1 →
      gatts_step h o s (GattsEvent.write h.data_export_handle c t v) =
        (s, [Action.sendResponse c t ESP_GATT_INVALID_PDU])) ∧
    (v.length = 1 → s.subscribed = true → v.getD 0 0 = 0 →
      gatts_step h o s (GattsEvent.write h.data_export_handle c t v) =
        ({ s with export_mode := 0 },
         [Action.sendResponse c t ESP_GATT_OK])) ∧
    (v.length = 1 → s.subscribed = true → v.getD 0 0 = 1 →
      gatts_step h o s (GattsEvent.write h.data_export_handle c t v) =
        ((send_chunk_notification h o { s with export_mode := 1 }).1,
         Action.sendResponse c t ESP_GATT_OK ::
           (send_chunk_notification h o { s with export_mode := 1 }).2)) := by
  refine ⟨?_, ?_, ?_, ?_, ?_⟩
  · intro hlen
    simp [gatts_step, handleWrite, hlen]
  · intro hlen hsub
    simp [gatts_step, handleWrite, hlen, hsub]
  · intro hlen hsub h0 h1
    rcases v with _ | ⟨b0, v2⟩
    · simp at hlen
    · rcases v2 with _ | ⟨b2, v3⟩
      · have hb0 : b0 ≠ 0 := by simpa using h0
        have hb1 : b0 ≠ 1 := by simpa using h1
        simp [gatts_step, handleWrite, hsub, hb0, hb1]
      · simp at hlen
  · intro hlen hsub h0
    rcases v with _ | ⟨b0, v2⟩
    · simp at hlen
    · rcases v2 with _ | ⟨b2, v3⟩
      · have hb0 : b0 = 0 := by simpa using h0
        subst hb0
        simp [gatts_step, handleWrite, hsub]
      · simp at hlen
  · intro hlen hsub h1
    rcases v with _ | ⟨b0, v2⟩
    · simp at hlen
    · rcases v2 with _ | ⟨b2, v3⟩
      · have hb0 : b0 = 1 := by simpa using h1
        subst hb0
        simp [gatts_step, handleWrite, hsub]
      · simp at hlen

/-- C6 witness: the five validation outcomes at concrete inputs — a
2-byte write, a write while unsubscribed, value 2, value 0, and value 1
(which triggers a chunk submission). -/
theorem mds_data_export_write_validation_witness :
    (gatts_step demoHandles oReady sStream
        (GattsEvent.write demoHandles.data_export_handle 7 1 [1, 1]) =
      (sStream, [Action.sendResponse 7 1 MDS_ERR_INVALID_LENGTH])) ∧
    (gatts_step demoHandles oReady initState
        (GattsEvent.write demoHandles.data_export_handle 7 1 [1]) =
      (initState, [Action.sendResponse 7 1 MDS_ERR_CLIENT_NOT_SUBSCRIBED])) ∧
    (gatts_step demoHandles oReady sStream
        (GattsEvent.write demoHandles.data_export_handle 7 1 [2]) =
      (sStream, [Action.sendResponse 7 1 ESP_GATT_INVALID_PDU])) ∧
    (gatts_step demoHandles oReady sStream
        (GattsEvent.write demoHandles.data_export_handle 7 1 [0]) =
      ({ sStream with export_mode := 0 },
       [Action.sendResponse 7 1 ESP_GATT_OK])) ∧
    (gatts_step demoHandles oReady sStream
        (GattsEvent.write demoHandles.data_export_handle 7 1 [1]) =
      ((send_chunk_notification demoHandles oReady sStream).1,
       Action.sendResponse 7 1 ESP_GATT_OK ::
         (send_chunk_notification demoHandles oReady sStream).2)) :=
  ⟨(mds_data_export_write_validation demoHandles oReady sStream 7 1
      [1, 1]).1 (by decide),
   (mds_data_export_write_validation demoHandles oReady initState 7 1
      [1]).2.1 (by decide) (by decide),
   (mds_data_export_write_validation demoHandles oReady sStream 7 1
      [2]).2.2.1 (by decide) (by decide) (by decide) (by decide),
   (mds_data_export_write_validation demoHandles oReady sStream 7 1
      [0]).2.2.2.1 (by decide) (by decide) (by decide),
   (mds_data_export_write_validation demoHandles oReady sStream 7 1
      [1]).2.2.2.2 (by decide) (by decide) (by decide)⟩

/-- C7: every notification payload produced by the chunk export engine is
one header byte followed by the chunk data; the header equals the current
sequence counter, which lies in 0..31 (so bits 5..7 of the header byte
are zero); and the data length never exceeds `mtu - 4`.  The counter
bound is the reachable-state invariant (`step_seq_lt` from the initial
value 0); the MTU bounds hold for every negotiated BLE MTU (the protocol
floor is 23 and the field is a `uint16_t`); the packetizer contract is
that `memfault_packetizer_get_chunk` fills at most the buffer size it is
handed. -/
theorem mds_chunk_framing (h : MdsHandles) (o : Oracle) (s : MdsState)
    (c hd : Nat) (p : List Nat)
    (hseq : s.chunk_sequence < 32) (hmtu4 : 4 ≤ s.mtu)
    (hmtu : s.mtu < 2 ^ 16) (hcc : ChunkContract o)
    (hmem : Action.sendNotification c hd p ∈
      (send_chunk_notification h o s).2) :
    ∃ data, p = s.chunk_sequence :: data ∧ s.chunk_sequence < 32 ∧
      data.length ≤ s.mtu - 4 := by
  rcases scn_cases h o s with h4 | h4 | h4 | ⟨data, hchunk, -, -, -, -, h4⟩
  · rw [h4] at hmem
    simp at hmem
  · rw [h4] at hmem
    simp at hmem
  · rw [h4] at hmem
    simp at hmem
  · rw [h4] at hmem
    simp only [List.mem_singleton, Action.sendNotification.injEq] at hmem
    obtain ⟨-, -, hp⟩ := hmem
    refine ⟨data, ?_, hseq, ?_⟩
    · rw [hp, headerByte_eq _ hseq]
    · have hlen := hcc _ _ hchunk
      rwa [max_chunk_size_eq s.mtu hmtu4
        (lt_trans hmtu (by norm_num))] at hlen

/-- C7 witness: a streaming session at MTU 23 and counter 0 with an
empty-chunk packetizer submits the one-byte payload `[0]`: header 0,
no data, 0 ≤ 19 = 23 − 4. -/
theorem mds_chunk_framing_witness :
    ∃ data, [(0 : Nat)] = (0 : Nat) :: data ∧ (0 : Nat) < 32 ∧
      data.length ≤ 19 :=
  mds_chunk_framing demoHandles oEmptyChunk sStream 7
    demoHandles.data_export_handle [0] (by decide) (by decide) (by decide)
    (by intro n d hd2; cases hd2; simp) (by decide)

/-- C2: across every event trace, the headers of successively submitted
chunks follow `(prev + 1) mod 32` (the 5-bit wrap); the counter does not
move on any event that submits nothing; and on a stack-submission
failure for a pulled chunk the counter is unchanged and
`memfault_packetizer_abort` is invoked exactly once. -/
theorem mds_sequence_counter (h : MdsHandles) (s : MdsState)
    (hs : s.chunk_sequence < 32) :
    (∀ tr : List (Oracle × GattsEvent),
      List.Chain' (fun x y => y = (x + 1) % 32)
        (notifHeaders (runTrace h s tr).2)) ∧
    (∀ (o : Oracle) (e : GattsEvent),
      notifPayloads (gatts_step h o s e).2 = [] →
      (gatts_step h o s e).1.chunk_sequence = s.chunk_sequence) ∧
    (∀ o : Oracle, s.subscribed = true → s.export_mode = 1 →
      s.congested = false → o.allocOk = true →
      (o.chunk (max_chunk_size s.mtu)).isSome = true → o.sendOk = false →
      (send_chunk_notification h o s).1.chunk_sequence = s.chunk_sequence ∧
      abortCount (send_chunk_notification h o s).2 = 1) := by
  refine ⟨fun tr => (runTrace_chain h tr s hs).1, ?_, ?_⟩
  · intro o e hempty
    rcases step_payload_spec h o s e with ⟨-, h2⟩ | ⟨data, hp, -, -⟩
    · exact h2
    · rw [hempty] at hp
      exact absurd hp (by simp)
  · intro o h1 h2 h3 h4 h5 h6
    rw [scn_send_failure h o s h1 h2 h3 h4 h5 h6]
    exact ⟨rfl, rfl⟩

/-- C2 witness: starting at counter 31, two confirmations submit headers
31 and 0 (one wrap); an MTU event moves no counter; and a failing
submission leaves the counter at 31 and aborts the packetizer once. -/
theorem mds_sequence_counter_witness :
    List.Chain' (fun x y => y = (x + 1) % 32)
      (notifHeaders (runTrace demoHandles sStream31 wrapTrace).2) ∧
    (runTrace demoHandles sStream31 wrapTrace).1.chunk_sequence = 1 ∧
    (gatts_step demoHandles oReady sStream31
      (GattsEvent.mtuEvt 50)).1.chunk_sequence = 31 ∧
    (send_chunk_notification demoHandles oSendFail
      sStream31).1.chunk_sequence = 31 ∧
    abortCount (send_chunk_notification demoHandles oSendFail
      sStream31).2 = 1 :=
  ⟨(mds_sequence_counter demoHandles sStream31 (by decide)).1 wrapTrace,
   by decide,
   (mds_sequence_counter demoHandles sStream31 (by decide)).2.1 oReady
     (GattsEvent.mtuEvt 50) (by decide),
   ((mds_sequence_counter demoHandles sStream31 (by decide)).2.2 oSendFail
     rfl rfl rfl rfl rfl rfl).1,
   ((mds_sequence_counter demoHandles sStream31 (by decide)).2.2 oSendFail
     rfl rfl rfl rfl rfl rfl).2⟩

/-- C1 counterexample: the claim concludes that no two chunk
notifications are ever submitted without an intervening confirm,
drain-to-idle, or congestion-clear event.  The concrete traces
`pacingTrace2`/`pacingTrace3` (subscribe, then export-mode-1 writes only;
the packetizer always has data, so no drain occurs, and the trace
contains no confirmation and no congestion event) submit one chunk after
the first write and a second chunk at the very next event — a plain
write request: the mode-1 write is itself a trigger the claim's
conclusion omits. -/
theorem mds_pacing_two_sends_without_confirm :
    sendCount (runTrace demoHandles initState pacingTrace2).2 = 1 ∧
    sendCount (runTrace demoHandles initState pacingTrace3).2 = 2 ∧
    (runTrace demoHandles initState pacingTrace2).1.export_mode = 1 ∧
    (∀ p ∈ pacingTrace3, p.2 ≠ GattsEvent.conf ∧
      ∀ b, p.2 ≠ GattsEvent.congest b) :=
  ⟨by decide, by decide, by decide, by decide⟩

/-- C1 (amended): `send_chunk_notification` is reached only from the
three triggers — an accepted export-mode-1 write, a confirmation while
streaming, a congestion-clear while streaming — and each delivered event
submits at most one chunk notification.  Hence between any two submitted
chunks there is an intervening trigger event; that trigger can be a
second export-mode-1 write, so a confirm/drain/congestion-clear is not
forced between two submissions. -/
theorem mds_single_in_flight_pacing (h : MdsHandles) (o : Oracle)
    (s : MdsState) (e : GattsEvent) :
    sendCount (gatts_step h o s e).2 ≤ 1 ∧
    (1 ≤ sendCount (gatts_step h o s e).2 → isSendTrigger h s e = true) := by
  rcases step_payload_spec h o s e with ⟨hp, -⟩ | ⟨data, hp, -, htrig⟩
  · unfold sendCount
    rw [hp]
    exact ⟨by simp, by simp⟩
  · unfold sendCount
    rw [hp]
    exact ⟨le_refl 1, fun _ => htrig⟩

/-- C1 witness: a confirmation delivered to a streaming session submits
one chunk, and the confirmation is a trigger event. -/
theorem mds_single_in_flight_pacing_witness :
    sendCount (gatts_step demoHandles oReady sStream GattsEvent.conf).2 ≤ 1 ∧
    isSendTrigger demoHandles sStream GattsEvent.conf = true :=
  ⟨(mds_single_in_flight_pacing demoHandles oReady sStream
      GattsEvent.conf).1,
   (mds_single_in_flight_pacing demoHandles oReady sStream
      GattsEvent.conf).2 (by decide)⟩

end Mds
